import Mathlib

/-!
Verification of the PC-60FW BLE reader (`src/main.rs`).

The program repeatedly discovers a BLE pulse oximeter, subscribes to a
notification characteristic, decodes the incoming frames into
(spo2, heart-rate) readings and prints them as CSV lines.  This file
shallowly embeds the relevant parts of `main.rs`: the inline notification
decoder, the `find_device` discovery routine, the inner session event loop
and the outer acquisition loop, and proves the specified properties about
them.
-/

namespace PC60FW

/-! ## Constants (from `main.rs` lines 16-19) -/

/-- `const PERIPHERAL_NAME_MATCH_FILTER: &str = "OxySmart";` -/
def PERIPHERAL_NAME_MATCH_FILTER : String := "OxySmart"

/-- `const NUS_CHARACTERISTIC_RX_UUID: Uuid = Uuid::from_u128(0x6e400003_b5a3_f393_e0a9_e50e24dcca9e);`
A 128-bit UUID modelled as a natural number. -/
def NUS_CHARACTERISTIC_RX_UUID : Nat := 0x6e400003b5a3f393e0a9e50e24dcca9e

/-! ## Notification decoder

`main.rs` lines 107-115 decode a raw notification payload inline:

    if value.len() >= 7 && value[..5] == vec!{0xaa, 0x55, 0x0f, 0x08, 0x01} {
        let (spo2, hr) = (value[5], value[6]);
        if spo2 == 0 && hr == 0 { continue; }
        println!("{},{},{}", time_iso8601, spo2, hr);
    }

We factor this inline code into a pure function from the byte sequence to
an optional (spo2, heartRate) pair; `none` means no line is printed for
this frame.  Bytes are modelled as natural numbers. -/

/-- The fixed five-byte frame header `vec!{0xaa, 0x55, 0x0f, 0x08, 0x01}`. -/
def FRAME_HEADER : List Nat := [0xaa, 0x55, 0x0f, 0x08, 0x01]

/-- Inline decoder of `main.rs` lines 107-113: validate length and header,
extract `spo2 = value[5]` and `hr = value[6]`, suppress the all-zero idle
frame.  Both indexed reads are in bounds under the length guard, so they
are rendered as `getD` with an irrelevant default. -/
def decode_notification (value : List Nat) : Option (Nat × Nat) :=
  if value.length ≥ 7 ∧ value.take 5 = FRAME_HEADER then
    if value.getD 5 0 = 0 ∧ value.getD 6 0 = 0 then
      none
    else
      some (value.getD 5 0, value.getD 6 0)
  else
    none

/-- A sanity example from the spec: decoding
`{0xAA,0x55,0x0F,0x08,0x01,0x62,0x48}` yields spo2 = 0x62, hr = 0x48. -/
example : decode_notification [0xaa, 0x55, 0x0f, 0x08, 0x01, 0x62, 0x48]
    = some (0x62, 0x48) := by decide

end PC60FW

namespace PC60FW

/-- **C1.** Any byte sequence shorter than 7 bytes, or whose first five
bytes differ from the fixed header `[0xAA, 0x55, 0x0F, 0x08, 0x01]`, decodes
to no Reading: the decoder returns `none` and has no error channel. -/
theorem decode_rejects_invalid_frames (value : List Nat)
    (h : value.length < 7 ∨ value.take 5 ≠ FRAME_HEADER) :
    decode_notification value = none := by
  unfold decode_notification
  rcases h with h | h
  · rw [if_neg]
    rintro ⟨h7, -⟩
    omega
  · rw [if_neg]
    rintro ⟨-, h5⟩
    exact h h5

/-- Witness for C1: the 7-byte frame whose header byte 0 is wrong is
rejected, as is a short frame. -/
theorem decode_rejects_invalid_frames_witness :
    decode_notification [0xab, 0x55, 0x0f, 0x08, 0x01, 0x62, 0x48] = none :=
  decode_rejects_invalid_frames _ (Or.inr (by decide))

/-- **C2.** A frame of length ≥ 7 with the correct header whose data bytes
are not both zero decodes to exactly one Reading carrying
`spo2 = value[5]` and `heartRate = value[6]`, and bytes from index 7 on
never matter: decoding the frame equals decoding its first 7 bytes. -/
theorem decode_accepts_valid_frames (value : List Nat)
    (h7 : value.length ≥ 7) (hhd : value.take 5 = FRAME_HEADER)
    (hnz : ¬ (value.getD 5 0 = 0 ∧ value.getD 6 0 = 0)) :
    decode_notification value = some (value.getD 5 0, value.getD 6 0)
      ∧ decode_notification value = decode_notification (value.take 7) := by
  have htk7 : (value.take 7).take 5 = FRAME_HEADER := by
    rw [List.take_take]
    simpa using hhd
  have hlen7 : (value.take 7).length = 7 := by
    simp [List.length_take]
    omega
  have hg5 : (value.take 7).getD 5 0 = value.getD 5 0 := by
    simp [List.getD, List.getElem?_take]
  have hg6 : (value.take 7).getD 6 0 = value.getD 6 0 := by
    simp [List.getD, List.getElem?_take]
  have hL : decode_notification value = some (value.getD 5 0, value.getD 6 0) := by
    unfold decode_notification
    rw [if_pos ⟨h7, hhd⟩, if_neg hnz]
  have hR : decode_notification (value.take 7)
      = some (value.getD 5 0, value.getD 6 0) := by
    unfold decode_notification
    rw [if_pos (show (value.take 7).length ≥ 7 ∧ (value.take 7).take 5 = FRAME_HEADER
          from ⟨by omega, htk7⟩),
        hg5, hg6, if_neg hnz]
  exact ⟨hL, hL.trans hR.symm⟩

/-- Witness for C2: a valid frame with two trailing junk bytes decodes to
`(0x62, 0x48)`, the same as its 7-byte truncation. -/
theorem decode_accepts_valid_frames_witness :
    decode_notification [0xaa, 0x55, 0x0f, 0x08, 0x01, 0x62, 0x48, 0xff, 0x00]
        = some (0x62, 0x48)
      ∧ decode_notification [0xaa, 0x55, 0x0f, 0x08, 0x01, 0x62, 0x48, 0xff, 0x00]
        = decode_notification
            ([0xaa, 0x55, 0x0f, 0x08, 0x01, 0x62, 0x48, 0xff, 0x00].take 7) := by
  have h := decode_accepts_valid_frames
    [0xaa, 0x55, 0x0f, 0x08, 0x01, 0x62, 0x48, 0xff, 0x00]
    (by decide) (by decide) (by decide)
  exact ⟨h.1, h.2⟩

/-- **C3.** A frame of length ≥ 7 with the correct header and
`value[5] = value[6] = 0` is the idle/no-contact frame and is suppressed:
the decoder returns `none`. -/
theorem decode_suppresses_idle_frames (value : List Nat)
    (h7 : value.length ≥ 7) (hhd : value.take 5 = FRAME_HEADER)
    (h5 : value.getD 5 0 = 0) (h6 : value.getD 6 0 = 0) :
    decode_notification value = none := by
  unfold decode_notification
  rw [if_pos ⟨h7, hhd⟩, if_pos ⟨h5, h6⟩]

/-- Witness for C3: the all-zero-data frame is suppressed. -/
theorem decode_suppresses_idle_frames_witness :
    decode_notification [0xaa, 0x55, 0x0f, 0x08, 0x01, 0x00, 0x00, 0x01] = none :=
  decode_suppresses_idle_frames _ (by decide) (by decide) (by decide) (by decide)

end PC60FW

namespace PC60FW

/-! ## Device discovery (`find_device`, `main.rs` lines 21-84)

`find_device` iterates over all adapters, scans each one, then iterates
over the discovered peripherals, filtering by name, connecting and looking
for the notification characteristic.  We model the btleplug handles by the
answers the environment gives to each call the function performs, in
source order.  Rust `Result` values become `RustResult`; a `panic`
(from `.expect`/`.unwrap`) is a distinct outcome, since it kills the
process rather than returning an error value. -/

/-- Rust `String::contains`: substring containment, case-sensitive. -/
def strContains (hay pat : String) : Bool :=
  decide (pat.data <:+: hay.data)

/-- Rust `Result<α, E>` with the error already rendered to a string (the
program only ever logs or propagates errors as strings). -/
inductive RustResult (α : Type) where
  | ok : α → RustResult α
  | error : String → RustResult α
deriving Repr, DecidableEq

/-- `CharPropFlags` bits of btleplug (only NOTIFY is consulted). -/
inductive CharPropFlag where
  | broadcast | read | writeWithoutResponse | write | notify | indicate
  | authenticatedSignedWrites
deriving Repr, DecidableEq

/-- A GATT characteristic: UUID plus property flags. -/
structure Characteristic where
  uuid : Nat
  props : List CharPropFlag
deriving Repr, DecidableEq

/-- `PeripheralProperties` as consulted by `find_device`: the address is
kept already rendered to a string (`properties.address.to_string()`). -/
structure PeripheralProperties where
  address : String
  local_name : Option String
deriving Repr, DecidableEq

/-- A discovered peripheral, modelled by the answers to the calls
`find_device` makes on it, in source order:
`properties()`, `is_connected()` (line 45), `connect()`,
`is_connected()` again (line 62), `discover_services()`,
`characteristics()`.  `id` models `peripheral.id()`. -/
structure Peripheral where
  id : Nat
  propsResult : RustResult (Option PeripheralProperties)
  isConnected0 : RustResult Bool
  connectResult : RustResult Unit
  isConnected1 : RustResult Bool
  discoverServicesResult : RustResult Unit
  characteristics : List Characteristic
deriving Repr, DecidableEq

/-- An adapter, modelled by the answers to `start_scan` (which is
`.expect`ed, so a failure panics) and `peripherals()`. -/
structure Adapter where
  id : Nat
  startScanOk : Bool
  peripheralsResult : RustResult (List Peripheral)
deriving Repr, DecidableEq

/-- Outcome of `find_device`: `Ok`, `Err`, or a process-killing panic
raised by `.expect`/`.unwrap`. -/
inductive FindOutcome (α : Type) where
  | ok : α → FindOutcome α
  | err : String → FindOutcome α
  | panicked : String → FindOutcome α
deriving Repr, DecidableEq

/-- Control flow of one body of the `for peripheral in peripherals` loop:
`continue`, `return Ok(...)`, a `?`-propagated error, or a panic. -/
inductive LoopStep (α : Type) where
  | skip : LoopStep α
  | ret : α → LoopStep α
  | errOut : String → LoopStep α
  | panicOut : String → LoopStep α
deriving Repr, DecidableEq

/-- `local_name` as computed on `main.rs` lines 46-48:
`properties.local_name.unwrap_or(String::from(properties.address.to_string()))`. -/
def local_name_of (properties : PeripheralProperties) : String :=
  properties.local_name.getD properties.address

/-- The characteristic predicate of `main.rs` lines 72-75:
`c.uuid == NUS_CHARACTERISTIC_RX_UUID && c.properties.contains(CharPropFlags::NOTIFY)`. -/
def isTargetCharacteristic (c : Characteristic) : Bool :=
  c.uuid == NUS_CHARACTERISTIC_RX_UUID && c.props.contains CharPropFlag.notify

/-- `main.rs` lines 55-80: the part of the peripheral loop body after the
name filter has passed — connect if needed (a connect error logs and
continues), re-check `is_connected`, discover services, and search for the
target characteristic. -/
def attemptCandidate (p : Peripheral) (is_connected : Bool) :
    LoopStep (Peripheral × Characteristic) :=
  let connectFailed : Bool :=
    if !is_connected then
      match p.connectResult with
      | .error _ => true
      | .ok _ => false
    else false
  if connectFailed then
    .skip
  else
    match p.isConnected1 with
    | .error e => .errOut e
    | .ok is_connected2 =>
      if !is_connected2 then
        .skip
      else
        match p.discoverServicesResult with
        | .error e => .errOut e
        | .ok _ =>
          match p.characteristics.find? isTargetCharacteristic with
          | none => .skip
          | some c => .ret (p, c)

/-- `main.rs` lines 44-80: the full body of the peripheral loop —
query `properties()` (the `?` then the `unwrap`), query `is_connected()`,
compute `local_name`, apply the substring name filter, then
`attemptCandidate`. -/
def tryPeripheral (p : Peripheral) : LoopStep (Peripheral × Characteristic) :=
  match p.propsResult with
  | .error e => .errOut e
  | .ok none => .panicOut "called Option unwrap on a None value"
  | .ok (some properties) =>
    match p.isConnected0 with
    | .error e => .errOut e
    | .ok is_connected =>
      if !(strContains (local_name_of properties) PERIPHERAL_NAME_MATCH_FILTER) then
        .skip
      else
        attemptCandidate p is_connected

/-- The peripheral loop of one adapter: run `tryPeripheral` on each
discovered peripheral in order; a `skip` moves to the next one, anything
else ends the loop.  An exhausted list falls through to the next adapter. -/
def tryPeripherals : List Peripheral → LoopStep (Peripheral × Characteristic)
  | [] => .skip
  | p :: ps =>
    match tryPeripheral p with
    | .skip => tryPeripherals ps
    | r => r

/-- The adapter loop of `find_device` (`main.rs` lines 28-83): scan
(`.expect` panics on failure), list peripherals (`?` propagates, an empty
list returns `Err`), then run the peripheral loop; if it falls through,
try the next adapter; after the last adapter, `Err("No matching
peripheral found")`. -/
def findDeviceGo : List Adapter → FindOutcome (Adapter × Peripheral × Characteristic)
  | [] => .err "No matching peripheral found"
  | a :: rest =>
    if !a.startScanOk then
      .panicked "Cant scan BLE adapter for connected devices"
    else
      match a.peripheralsResult with
      | .error e => .err e
      | .ok peripherals =>
        if peripherals.isEmpty then
          .err "No BLE peripheral devices found"
        else
          match tryPeripherals peripherals with
          | .skip => findDeviceGo rest
          | .ret (p, c) => .ok (a, p, c)
          | .errOut e => .err e
          | .panicOut m => .panicked m

/-- `find_device` (`main.rs` lines 21-84): fail if the adapter list is
empty, otherwise run the adapter loop. -/
def find_device (adapter_list : List Adapter) :
    FindOutcome (Adapter × Peripheral × Characteristic) :=
  if adapter_list.isEmpty then
    .err "No adapters found"
  else
    findDeviceGo adapter_list

/-! ### Helper lemmas about the discovery loops -/

/-- A prefix of skipped peripherals does not affect the peripheral loop. -/
theorem tryPeripherals_append_of_skip (pre rest : List Peripheral)
    (h : ∀ q ∈ pre, tryPeripheral q = .skip) :
    tryPeripherals (pre ++ rest) = tryPeripherals rest := by
  induction pre with
  | nil => rfl
  | cons p ps ih =>
    have hp : tryPeripheral p = .skip := h p (by simp)
    simp only [List.cons_append, tryPeripherals, hp]
    exact ih fun q hq => h q (by simp [hq])

/-- If every peripheral of an adapter is skipped, its loop falls through. -/
theorem tryPeripherals_eq_skip (ps : List Peripheral)
    (h : ∀ q ∈ ps, tryPeripheral q = .skip) :
    tryPeripherals ps = .skip := by
  induction ps with
  | nil => rfl
  | cons p ps ih =>
    have hp : tryPeripheral p = .skip := h p (by simp)
    simp only [tryPeripherals, hp]
    exact ih fun q hq => h q (by simp [hq])

/-- Adapters whose scan succeeds, whose peripheral list is non-empty and
all of whose peripherals are skipped are passed over by the adapter loop. -/
theorem findDeviceGo_append_of_skip (as1 rest : List Adapter)
    (h : ∀ b ∈ as1, b.startScanOk = true ∧
        ∃ qs, b.peripheralsResult = .ok qs ∧ qs ≠ [] ∧
          ∀ q ∈ qs, tryPeripheral q = .skip) :
    findDeviceGo (as1 ++ rest) = findDeviceGo rest := by
  induction as1 with
  | nil => rfl
  | cons a as ih =>
    obtain ⟨hscan, qs, hqs, hne, hskip⟩ := h a (by simp)
    have : tryPeripherals qs = .skip := tryPeripherals_eq_skip qs hskip
    simp only [List.cons_append, findDeviceGo, hscan, hqs, this,
      Bool.not_true, Bool.false_eq_true, if_false,
      List.isEmpty_iff, hne, if_false]
    exact ih fun b hb => h b (by simp [hb])

/-- A peripheral whose properties are present, whose (possibly freshly
made) connection is up, whose service discovery succeeds, whose name
passes the filter and which exposes the target characteristic, is returned
by the loop body. -/
theorem tryPeripheral_ret (p : Peripheral) (properties : PeripheralProperties)
    (b0 : Bool) (c : Characteristic)
    (hProps : p.propsResult = .ok (some properties))
    (hConn0 : p.isConnected0 = .ok b0)
    (hName : strContains (local_name_of properties) PERIPHERAL_NAME_MATCH_FILTER
        = true)
    (hConnect : b0 = false → p.connectResult = .ok ())
    (hConn1 : p.isConnected1 = .ok true)
    (hDisc : p.discoverServicesResult = .ok ())
    (hChar : p.characteristics.find? isTargetCharacteristic = some c) :
    tryPeripheral p = .ret (p, c) := by
  simp only [tryPeripheral, hProps, hConn0, hName, Bool.not_true,
    Bool.false_eq_true, if_false]
  have hcf : (if !b0 then
      match p.connectResult with
      | .error _ => true
      | .ok _ => false
      else false) = false := by
    cases b0 with
    | true => rfl
    | false => simp [hConnect rfl]
  simp only [attemptCandidate, hcf, Bool.false_eq_true, if_false, hConn1,
    Bool.not_true, hDisc, hChar]

end PC60FW

namespace PC60FW

/-- **C4.** `find_device` returns the first candidate in enumeration order
(across adapters, then peripherals) whose name passes the substring
filter, that is connected after the connect step, and that exposes a
characteristic with the target UUID and the NOTIFY flag; everything after
that candidate is never examined.  Moreover a candidate whose connect
attempt fails, or one that lacks a matching characteristic, is skipped
(the loop moves to the next candidate). -/
theorem find_device_first_success
    (as1 : List Adapter) (a : Adapter) (as2 : List Adapter)
    (pre post : List Peripheral) (p : Peripheral) (c : Characteristic)
    (properties : PeripheralProperties) (b0 : Bool)
    (hAs1 : ∀ b ∈ as1, b.startScanOk = true ∧
        ∃ qs, b.peripheralsResult = .ok qs ∧ qs ≠ [] ∧
          ∀ q ∈ qs, tryPeripheral q = .skip)
    (hScan : a.startScanOk = true)
    (hPs : a.peripheralsResult = .ok (pre ++ p :: post))
    (hPre : ∀ q ∈ pre, tryPeripheral q = .skip)
    (hProps : p.propsResult = .ok (some properties))
    (hConn0 : p.isConnected0 = .ok b0)
    (hName : strContains (local_name_of properties) PERIPHERAL_NAME_MATCH_FILTER
        = true)
    (hConnect : b0 = false → p.connectResult = .ok ())
    (hConn1 : p.isConnected1 = .ok true)
    (hDisc : p.discoverServicesResult = .ok ())
    (hChar : p.characteristics.find? isTargetCharacteristic = some c) :
    find_device (as1 ++ a :: as2) = .ok (a, p, c)
      ∧ (∀ q e, q.connectResult = .error e → attemptCandidate q false = .skip)
      ∧ (∀ q b, (b = true ∨ q.connectResult = .ok ()) →
          q.isConnected1 = .ok true → q.discoverServicesResult = .ok () →
          q.characteristics.find? isTargetCharacteristic = none →
          attemptCandidate q b = .skip) := by
  refine ⟨?_, ?_, ?_⟩
  · have hret : tryPeripheral p = .ret (p, c) :=
      tryPeripheral_ret p properties b0 c hProps hConn0 hName hConnect hConn1
        hDisc hChar
    have hloop : tryPeripherals (pre ++ p :: post) = .ret (p, c) := by
      rw [tryPeripherals_append_of_skip pre _ hPre]
      simp only [tryPeripherals, hret]
    have hne : (as1 ++ a :: as2).isEmpty = false := by
      cases as1 <;> rfl
    rw [find_device, hne]
    rw [if_neg (by simp), findDeviceGo_append_of_skip as1 _ hAs1]
    simp only [findDeviceGo, hScan, hPs, hloop, Bool.not_true,
      Bool.false_eq_true, if_false]
    rw [if_neg (by simp)]
  · intro q e hq
    simp [attemptCandidate, hq]
  · intro q b hconn hc1 hd hfind
    have hcf : (if !b then
        match q.connectResult with
        | .error _ => true
        | .ok _ => false
        else false) = false := by
      cases b with
      | true => rfl
      | false =>
        rcases hconn with h | h
        · exact absurd h (by simp)
        · simp [h]
    simp [attemptCandidate, hcf, hc1, hd, hfind]

/-- Concrete discovery scenario (spec section 8): candidate A fails to
connect, candidate B lacks the characteristic, candidate C succeeds. -/
def sampleChar : Characteristic :=
  ⟨NUS_CHARACTERISTIC_RX_UUID, [CharPropFlag.notify]⟩

/-- Candidate whose connect attempt fails. -/
def periphA : Peripheral :=
  { id := 10
    propsResult := .ok (some ⟨"11:22:33:44:55:66", some "OxySmart-A"⟩)
    isConnected0 := .ok false
    connectResult := .error "connect refused"
    isConnected1 := .ok false
    discoverServicesResult := .ok ()
    characteristics := [] }

/-- Candidate that connects but lacks the target characteristic. -/
def periphB : Peripheral :=
  { id := 11
    propsResult := .ok (some ⟨"11:22:33:44:55:77", some "OxySmart-B"⟩)
    isConnected0 := .ok false
    connectResult := .ok ()
    isConnected1 := .ok true
    discoverServicesResult := .ok ()
    characteristics := [⟨1234, [CharPropFlag.read]⟩] }

/-- Candidate that connects and has the target characteristic. -/
def periphC : Peripheral :=
  { id := 12
    propsResult := .ok (some ⟨"11:22:33:44:55:88", some "OxySmart-C"⟩)
    isConnected0 := .ok false
    connectResult := .ok ()
    isConnected1 := .ok true
    discoverServicesResult := .ok ()
    characteristics := [sampleChar] }

/-- Adapter exposing the three candidates above. -/
def sampleAdapter : Adapter := ⟨0, true, .ok [periphA, periphB, periphC]⟩

/-- Witness for C4: on the three-candidate adapter, `find_device` selects
candidate C (the first full success) and skipping behaves as stated. -/
theorem find_device_first_success_witness :
    find_device [sampleAdapter] = .ok (sampleAdapter, periphC, sampleChar)
      ∧ (∀ q e, q.connectResult = .error e → attemptCandidate q false = .skip)
      ∧ (∀ q b, (b = true ∨ q.connectResult = .ok ()) →
          q.isConnected1 = .ok true → q.discoverServicesResult = .ok () →
          q.characteristics.find? isTargetCharacteristic = none →
          attemptCandidate q b = .skip) :=
  find_device_first_success [] sampleAdapter [] [periphA, periphB] []
    periphC sampleChar ⟨"11:22:33:44:55:88", some "OxySmart-C"⟩ false
    (by simp)
    (by rfl) (by rfl)
    (by intro q hq; fin_cases hq <;> rfl)
    (by rfl) (by rfl) (by decide)
    (fun _ => rfl) (by rfl) (by rfl) (by rfl)

/-- **C9.** A discovered peripheral advertising no local name is not
skipped: the name filter is applied to its address rendered as a string
(`unwrap_or(properties.address.to_string())`), so it proceeds as a
candidate exactly when the address string contains the configured
substring. -/
theorem nameless_peripheral_filtered_by_address
    (p : Peripheral) (addr : String) (b : Bool)
    (hProps : p.propsResult = .ok (some ⟨addr, none⟩))
    (hConn0 : p.isConnected0 = .ok b) :
    tryPeripheral p =
      (if strContains addr PERIPHERAL_NAME_MATCH_FILTER then
        attemptCandidate p b
      else
        .skip) := by
  simp only [tryPeripheral, hProps, hConn0, local_name_of, Option.getD]
  by_cases h : strContains addr PERIPHERAL_NAME_MATCH_FILTER = true <;>
    simp [h]

/-- Nameless peripheral whose address contains the filter string. -/
def namelessMatching : Peripheral :=
  { id := 20
    propsResult := .ok (some ⟨"OxySmart-99:88", none⟩)
    isConnected0 := .ok false
    connectResult := .ok ()
    isConnected1 := .ok true
    discoverServicesResult := .ok ()
    characteristics := [sampleChar] }

/-- Witness for C9: the nameless peripheral with a matching address string
goes on to the candidate-connection stage. -/
theorem nameless_peripheral_filtered_by_address_witness :
    tryPeripheral namelessMatching =
      (if strContains "OxySmart-99:88" PERIPHERAL_NAME_MATCH_FILTER then
        attemptCandidate namelessMatching false
      else
        .skip) :=
  nameless_peripheral_filtered_by_address namelessMatching "OxySmart-99:88"
    false (by rfl) (by rfl)

/-- **C10.** `find_device` assumes every discovered peripheral reports
properties: when the `properties()` query of a reached peripheral returns
`Ok(None)`, the `.unwrap()` on line 44 panics — the function never returns
an `Err` value for this case. -/
theorem find_device_panics_on_missing_properties
    (a : Adapter) (rest : List Adapter) (p : Peripheral) (ps : List Peripheral)
    (hScan : a.startScanOk = true)
    (hPs : a.peripheralsResult = .ok (p :: ps))
    (hProps : p.propsResult = .ok none) :
    find_device (a :: rest)
        = .panicked "called Option unwrap on a None value"
      ∧ ∀ e, find_device (a :: rest) ≠ FindOutcome.err e := by
  have hgo : find_device (a :: rest)
      = .panicked "called Option unwrap on a None value" := by
    have htp : tryPeripheral p = .panicOut "called Option unwrap on a None value" := by
      simp only [tryPeripheral, hProps]
    rw [find_device, if_neg (by simp)]
    simp only [findDeviceGo, hScan, hPs, Bool.not_true, Bool.false_eq_true,
      if_false, List.isEmpty_cons, tryPeripherals, htp]
  exact ⟨hgo, fun e he => by rw [hgo] at he; exact FindOutcome.noConfusion he⟩

/-- Peripheral whose `properties()` call answers `Ok(None)`. -/
def propertylessPeripheral : Peripheral :=
  { id := 30
    propsResult := .ok none
    isConnected0 := .ok false
    connectResult := .ok ()
    isConnected1 := .ok true
    discoverServicesResult := .ok ()
    characteristics := [sampleChar] }

/-- Adapter exposing only the property-less peripheral. -/
def propertylessAdapter : Adapter := ⟨2, true, .ok [propertylessPeripheral]⟩

/-- Witness for C10: discovery over the property-less peripheral panics. -/
theorem find_device_panics_on_missing_properties_witness :
    find_device [propertylessAdapter]
        = .panicked "called Option unwrap on a None value"
      ∧ ∀ e, find_device [propertylessAdapter] ≠ FindOutcome.err e :=
  find_device_panics_on_missing_properties propertylessAdapter []
    propertylessPeripheral [] (by rfl) (by rfl) (by rfl)

end PC60FW

namespace PC60FW

/-! ### C6: how discovery failures on one adapter actually propagate

The spec claims a scan/enumeration failure is fatal only for that adapter
and the next adapter is tried.  In the source, `adapter.peripherals().await?`
propagates the error out of `find_device` entirely (line 35), and
`adapter.start_scan(...).expect(...)` panics the process (lines 30-33);
neither continues with the next adapter. -/

/-- Adapter whose `peripherals()` enumeration fails. -/
def enumFailAdapter : Adapter := ⟨3, true, .error "enumeration failed"⟩

/-- Adapter whose `start_scan` fails (the `.expect` panics). -/
def scanFailAdapter : Adapter := ⟨4, false, .ok [periphC]⟩

/-- Good adapter that would succeed if it were tried. -/
def goodAdapter : Adapter := ⟨5, true, .ok [periphC]⟩

/-- Counterexample to C6: with an enumeration-failing adapter first and a
good adapter second, `find_device` returns the error — the good adapter,
which alone succeeds, is never tried.  A scan failure even panics. -/
theorem scan_failure_tries_next_adapter_counterexample :
    find_device [enumFailAdapter, goodAdapter] = .err "enumeration failed"
      ∧ find_device [goodAdapter] = .ok (goodAdapter, periphC, sampleChar)
      ∧ find_device [scanFailAdapter, goodAdapter]
        = .panicked "Cant scan BLE adapter for connected devices" := by
  refine ⟨by rfl, ?_, by rfl⟩
  decide

/-- **C6 (amended).** A `start_scan` failure panics the whole process; a
`peripherals()` enumeration failure makes `find_device` return that error
immediately, aborting the entire discovery attempt — later adapters are
not tried (the outer loop then logs the error and restarts discovery from
the first adapter). -/
theorem scan_failure_aborts_discovery
    (a a2 : Adapter) (rest rest2 : List Adapter) (e : String)
    (hScan : a.startScanOk = true)
    (hPs : a.peripheralsResult = .error e)
    (hScan2 : a2.startScanOk = false) :
    find_device (a :: rest) = .err e
      ∧ find_device (a2 :: rest2)
        = .panicked "Cant scan BLE adapter for connected devices" := by
  constructor
  · rw [find_device, if_neg (by simp)]
    simp only [findDeviceGo, hScan, hPs, Bool.not_true, Bool.false_eq_true,
      if_false]
  · rw [find_device, if_neg (by simp)]
    simp only [findDeviceGo, hScan2, Bool.not_false, if_true]

/-- Witness for the amended C6. -/
theorem scan_failure_aborts_discovery_witness :
    find_device [enumFailAdapter, goodAdapter] = .err "enumeration failed"
      ∧ find_device [scanFailAdapter, goodAdapter]
        = .panicked "Cant scan BLE adapter for connected devices" :=
  scan_failure_aborts_discovery enumFailAdapter scanFailAdapter [goodAdapter]
    [goodAdapter] "enumeration failed" (by rfl) (by rfl) (by rfl)

end PC60FW

namespace PC60FW

/-! ## Connection session and acquisition loop (`main.rs` lines 86-137)

The inner `loop` multiplexes two streams with `tokio::select!`: the
notification stream of the bound peripheral and the adapter-wide central
event stream.  We model one loop iteration by which arm fired and what it
delivered; a whole session run is a finite observed sequence of such
deliveries, each paired with the wall-clock string `chrono` would render
if a line is printed at that moment. -/

/-- `btleplug::api::ValueNotification` (the `uuid` field is ignored by the
program: the pattern is `ValueNotification { uuid: _, value }`). -/
structure ValueNotification where
  uuid : Nat
  value : List Nat
deriving Repr, DecidableEq

/-- `btleplug::api::CentralEvent`, with the variants the program does not
inspect collapsed into representative non-disconnection events. -/
inductive CentralEvent where
  | deviceDiscovered (id : Nat)
  | deviceConnected (id : Nat)
  | deviceDisconnected (id : Nat)
  | otherEvent (tag : Nat)
deriving Repr, DecidableEq

/-- Which `tokio::select!` arm fired, and the `Option` item it produced
(`none` models an exhausted stream). -/
inductive SelectArm where
  | notif (msg : Option ValueNotification)
  | lifecycle (msg : Option CentralEvent)
deriving Repr, DecidableEq

/-- A line printed to stdout: the startup header (line 90) or one CSV data
line (line 114). -/
inductive OutputLine where
  | header
  | data (time_iso8601 : String) (spo2 hr : Nat)
deriving Repr, DecidableEq

/-- One iteration of the inner loop (`main.rs` lines 101-130): returns the
line printed (if any) and whether the loop `break`s.  On a notification
item the raw bytes go through the decoder; a decode miss prints nothing;
on `None` from the notification stream the loop breaks.  A lifecycle event
breaks only when it is `DeviceDisconnected` of the bound peripheral id. -/
def sessionStep (boundId : Nat) (now : String) :
    SelectArm → Option OutputLine × Bool
  | .notif msg =>
    match msg with
    | some vn =>
      (match decode_notification vn.value with
       | some (spo2, hr) => (some (.data now spo2 hr), false)
       | none => (none, false))
    | none => (none, true)
  | .lifecycle msg =>
    match msg with
    | some (CentralEvent.deviceDisconnected periph_id) =>
      if periph_id == boundId then (none, true) else (none, false)
    | _ => (none, false)

/-- The inner loop run over an observed finite sequence of deliveries:
collect printed lines until a `break`. -/
def runSessionLoop (boundId : Nat) :
    List (String × SelectArm) → List OutputLine
  | [] => []
  | (now, arm) :: rest =>
    match sessionStep boundId now arm with
    | (out, true) => out.toList
    | (out, false) => out.toList ++ runSessionLoop boundId rest

/-- Environment of one `Ok` branch of the outer loop (`main.rs` lines
94-133), in the order the fallible calls are made: `subscribe()?`,
`notifications()?`, `events()?`, then the inner loop over `events`, then
`disconnect()?`. -/
structure SessionEnv where
  subscribeResult : RustResult Unit
  notificationsResult : RustResult Unit
  eventsResult : RustResult Unit
  events : List (String × SelectArm)
  disconnectResult : RustResult Unit
deriving Repr, DecidableEq

/-- Outcome of one iteration of the outer `loop` in `main`: either control
returns to the top of the loop, or a `?` fired and `main` returns the
error (terminating the process).  Either way, `printed` lists the lines
printed during the iteration. -/
inductive IterOutcome where
  | continueLoop (printed : List OutputLine)
  | fatal (e : String) (printed : List OutputLine)
deriving Repr, DecidableEq

/-- The `Ok((adaptor, peripheral, characteristic_rx))` branch of the outer
loop (`main.rs` lines 94-133): subscribe, create both streams, run the
inner loop, then `peripheral.disconnect().await?`. -/
def runSessionBody (boundId : Nat) (env : SessionEnv) : IterOutcome :=
  match env.subscribeResult with
  | .error e => .fatal e []
  | .ok _ =>
    match env.notificationsResult with
    | .error e => .fatal e []
    | .ok _ =>
      match env.eventsResult with
      | .error e => .fatal e []
      | .ok _ =>
        match env.disconnectResult with
        | .error e => .fatal e (runSessionLoop boundId env.events)
        | .ok _ => .continueLoop (runSessionLoop boundId env.events)

/-- One iteration of the outer loop: what `find_device` produced, and the
session environment used if it produced a triple. -/
structure Iteration where
  findResult : FindOutcome (Adapter × Peripheral × Characteristic)
  env : SessionEnv
deriving Repr, DecidableEq

/-- The outer `loop` of `main` (lines 92-137) run over a finite observed
sequence of iterations, collecting every printed line.  An `Err` from
`find_device` only logs; a fatal `?` or a panic stops the process, so no
later iteration contributes output. -/
def runIterations : List Iteration → List OutputLine
  | [] => []
  | it :: rest =>
    match it.findResult with
    | .ok (_, p, _) =>
      (match runSessionBody p.id it.env with
       | .continueLoop out => out ++ runIterations rest
       | .fatal _ out => out)
    | .err _ => runIterations rest
    | .panicked _ => []

/-- `main` (lines 87-137): print the header once, then run the loop. -/
def runMain (its : List Iteration) : List OutputLine :=
  OutputLine.header :: runIterations its

/-- The accepted Readings of a session, in decode order: every
notification delivered before the session terminates whose bytes the
decoder accepts, paired with its capture-time string.  This is the spec
notion that each printed data line corresponds to. -/
def acceptedReadings (boundId : Nat) :
    List (String × SelectArm) → List (String × Nat × Nat)
  | [] => []
  | (now, arm) :: rest =>
    match arm with
    | .notif none => []
    | .notif (some vn) =>
      (match decode_notification vn.value with
       | some (spo2, hr) => (now, spo2, hr) :: acceptedReadings boundId rest
       | none => acceptedReadings boundId rest)
    | .lifecycle (some (CentralEvent.deviceDisconnected pid)) =>
      if pid == boundId then [] else acceptedReadings boundId rest
    | .lifecycle _ => acceptedReadings boundId rest

/-- The accepted Readings of a whole run of the outer loop, in order. -/
def iterationsReadings : List Iteration → List (String × Nat × Nat)
  | [] => []
  | it :: rest =>
    match it.findResult with
    | .ok (_, p, _) =>
      (match it.env.subscribeResult, it.env.notificationsResult,
          it.env.eventsResult with
       | .ok _, .ok _, .ok _ =>
         (match it.env.disconnectResult with
          | .ok _ => acceptedReadings p.id it.env.events ++ iterationsReadings rest
          | .error _ => acceptedReadings p.id it.env.events)
       | _, _, _ => [])
    | .err _ => iterationsReadings rest
    | .panicked _ => []

/-- Rendering of an accepted Reading as its CSV line. -/
def readingLine (r : String × Nat × Nat) : OutputLine :=
  OutputLine.data r.1 r.2.1 r.2.2

/-- The lines printed by a session are exactly its accepted Readings
rendered in order. -/
theorem runSessionLoop_eq_map (boundId : Nat)
    (evs : List (String × SelectArm)) :
    runSessionLoop boundId evs
      = (acceptedReadings boundId evs).map readingLine := by
  induction evs with
  | nil => rfl
  | cons ev rest ih =>
    obtain ⟨now, arm⟩ := ev
    match arm with
    | .notif none => rfl
    | .notif (some vn) =>
      simp only [runSessionLoop, sessionStep, acceptedReadings]
      cases hdec : decode_notification vn.value with
      | none => simpa [hdec] using ih
      | some r =>
        obtain ⟨spo2, hr⟩ := r
        simpa [hdec, readingLine] using ih
    | .lifecycle none => simpa [runSessionLoop, sessionStep, acceptedReadings] using ih
    | .lifecycle (some (CentralEvent.deviceDiscovered i)) =>
      simpa [runSessionLoop, sessionStep, acceptedReadings] using ih
    | .lifecycle (some (CentralEvent.deviceConnected i)) =>
      simpa [runSessionLoop, sessionStep, acceptedReadings] using ih
    | .lifecycle (some (CentralEvent.otherEvent t)) =>
      simpa [runSessionLoop, sessionStep, acceptedReadings] using ih
    | .lifecycle (some (CentralEvent.deviceDisconnected pid)) =>
      by_cases hid : pid == boundId
      · simp [runSessionLoop, sessionStep, acceptedReadings, hid]
      · simpa [runSessionLoop, sessionStep, acceptedReadings, hid] using ih

end PC60FW

namespace PC60FW

/-- **C5.** The session event loop breaks exactly when the notification
stream is exhausted or a lifecycle event reports disconnection of the
bound peripheral id; every other delivery — any decode result, lifecycle
events of other kinds, disconnection of a different peripheral, even
exhaustion of the lifecycle stream — leaves the loop running. -/
theorem session_breaks_iff_exhausted_or_own_disconnect
    (boundId : Nat) (now : String) (arm : SelectArm) :
    (sessionStep boundId now arm).2 = true ↔
      arm = SelectArm.notif none ∨
        arm = SelectArm.lifecycle
          (some (CentralEvent.deviceDisconnected boundId)) := by
  match arm with
  | .notif none => simp [sessionStep]
  | .notif (some vn) =>
    simp only [sessionStep]
    cases hdec : decode_notification vn.value with
    | none => simp
    | some r =>
      obtain ⟨spo2, hr⟩ := r
      simp
  | .lifecycle none => simp [sessionStep]
  | .lifecycle (some (CentralEvent.deviceDiscovered i)) => simp [sessionStep]
  | .lifecycle (some (CentralEvent.deviceConnected i)) => simp [sessionStep]
  | .lifecycle (some (CentralEvent.otherEvent t)) => simp [sessionStep]
  | .lifecycle (some (CentralEvent.deviceDisconnected pid)) =>
    by_cases hid : pid = boundId
    · subst hid
      simp [sessionStep]
    · simp [sessionStep, hid, Ne.symm hid]

/-- Session environment where everything succeeds except the final
`disconnect()` call; the single delivered event ends the stream. -/
def disconnectFailEnv : SessionEnv :=
  { subscribeResult := .ok ()
    notificationsResult := .ok ()
    eventsResult := .ok ()
    events := [("2024-01-01T00:00:00+00:00", SelectArm.notif none)]
    disconnectResult := .error "disconnect failed" }

/-- Counterexample to C7: when the post-session `disconnect()` call fails,
the iteration does not continue the acquisition loop — the `?` on line 133
turns the error into a fatal return from `main`. -/
theorem disconnect_failure_best_effort_counterexample :
    runSessionBody 0 disconnectFailEnv
      = IterOutcome.fatal "disconnect failed" [] := by
  rfl

/-- **C7 (amended).** On session termination the program issues a
disconnect request, but it is not best-effort: if `disconnect()` fails,
the error propagates out of `main` via `?`, terminating the acquisition
loop and the process, after the lines of the finished session were
printed. -/
theorem disconnect_failure_is_fatal
    (boundId : Nat) (env : SessionEnv) (e : String)
    (hs : env.subscribeResult = .ok ())
    (hn : env.notificationsResult = .ok ())
    (he : env.eventsResult = .ok ())
    (hd : env.disconnectResult = .error e) :
    runSessionBody boundId env
      = IterOutcome.fatal e (runSessionLoop boundId env.events) := by
  simp only [runSessionBody, hs, hn, he, hd]

/-- Witness for the amended C7. -/
theorem disconnect_failure_is_fatal_witness :
    runSessionBody 0 disconnectFailEnv
      = IterOutcome.fatal "disconnect failed"
          (runSessionLoop 0 disconnectFailEnv.events) :=
  disconnect_failure_is_fatal 0 disconnectFailEnv "disconnect failed"
    (by rfl) (by rfl) (by rfl) (by rfl)

/-- **C8.** The output stream is the single header line
`time,spo2,heartrate`, printed once at startup before any reading and
never repeated across reconnects, followed by exactly one CSV data line
per accepted Reading, in decode order. -/
theorem output_is_header_then_readings (its : List Iteration) :
    runMain its = OutputLine.header :: runIterations its
      ∧ OutputLine.header ∉ runIterations its
      ∧ runIterations its = (iterationsReadings its).map readingLine := by
  have hmap : runIterations its = (iterationsReadings its).map readingLine := by
    induction its with
    | nil => rfl
    | cons it rest ih =>
      match hfind : it.findResult with
      | .err e => simpa [runIterations, iterationsReadings, hfind] using ih
      | .panicked m => simp [runIterations, iterationsReadings, hfind]
      | .ok (a, p, c) =>
        match hs : it.env.subscribeResult with
        | .error e =>
          simp [runIterations, iterationsReadings, hfind, runSessionBody, hs]
        | .ok _ =>
          match hn : it.env.notificationsResult with
          | .error e =>
            simp [runIterations, iterationsReadings, hfind, runSessionBody,
              hs, hn]
          | .ok _ =>
            match he : it.env.eventsResult with
            | .error e =>
              simp [runIterations, iterationsReadings, hfind, runSessionBody,
                hs, hn, he]
            | .ok _ =>
              match hd : it.env.disconnectResult with
              | .error e =>
                simp [runIterations, iterationsReadings, hfind,
                  runSessionBody, hs, hn, he, hd, runSessionLoop_eq_map]
              | .ok _ =>
                simp [runIterations, iterationsReadings, hfind,
                  runSessionBody, hs, hn, he, hd, runSessionLoop_eq_map, ih]
  refine ⟨rfl, ?_, hmap⟩
  rw [hmap]
  intro hmem
  obtain ⟨r, -, hr⟩ := List.mem_map.mp hmem
  exact OutputLine.noConfusion hr

end PC60FW
